import Mathlib

set_option maxHeartbeats 1000000

namespace FPS

/-! Shallow embedding of the first-person controller of
src/components/firstPersonSetup.js (the canonical variant in the second half
of that file), its terrain height sampler and ground resolver, the
keepOnTerrain helper, and the configuration merge. JavaScript numbers are
modelled as exact rationals; a value the source may observe as non-finite
through Number.isFinite is modelled by `JNum`, whose `nan` constructor stands
for NaN and the infinities alike. -/

/-- A JavaScript number as the source observes it through Number.isFinite:
either a finite value, modelled as an exact rational, or a non-finite one
(NaN, or an infinity), written `nan`. -/
inductive JNum where
  | num (q : ℚ)
  | nan
  deriving DecidableEq, Repr

/-- Number.isFinite. -/
def JNum.isFinite : JNum → Bool
  | .num _ => true
  | .nan => false

/-- A THREE.Vector3 with finite components. -/
structure Vec3 where
  x : ℚ
  y : ℚ
  z : ℚ
  deriving DecidableEq, Repr

/-- Vector3 zero, the result of velocity.set(0, 0, 0). -/
def Vec3.zero : Vec3 := ⟨0, 0, 0⟩

/-- The moveState record of initializeMovementState. -/
structure MoveKeys where
  forward : Bool
  backward : Bool
  left : Bool
  right : Bool
  sprint : Bool
  jump : Bool
  deriving DecidableEq, Repr

/-- All six held-key flags cleared, as the unlock listener leaves them. -/
def MoveKeys.allOff : MoveKeys := ⟨false, false, false, false, false, false⟩

/-- The mutable movement record of initializeMovementState (canonical
variant): held keys, velocity, last desired direction, the grounded flag and
the jump latch pair. -/
structure Movement where
  moveState : MoveKeys
  velocity : Vec3
  direction : Vec3
  isGrounded : Bool
  pendingJump : Bool
  jumpBoost : Bool
  deriving DecidableEq, Repr

/-- initializeMovementState (canonical variant, lines 332-348). -/
def initMovementState : Movement :=
  { moveState := MoveKeys.allOff
    velocity := Vec3.zero
    direction := Vec3.zero
    isGrounded := true
    pendingJump := false
    jumpBoost := false }

/-- The key codes the input handler's switch distinguishes; `other` stands
for every code that falls to the default branch. -/
inductive KeyCode where
  | keyW | arrowUp | keyS | arrowDown | keyA | arrowLeft | keyD | arrowRight
  | shiftLeft | shiftRight | space | other
  deriving DecidableEq, Repr

/-- createInputHandler (canonical variant, lines 353-392): the handler the
setup binds to keydown (isPressed = true) and keyup (isPressed = false).
Space first mirrors isPressed into moveState.jump; a press while grounded
latches pendingJump and snapshots jumpBoost from the forward key; a press
while airborne changes no latch; a release clears both latches. -/
def handleKey (m : Movement) (code : KeyCode) (isPressed : Bool) : Movement :=
  match code with
  | .keyW | .arrowUp => { m with moveState := { m.moveState with forward := isPressed } }
  | .keyS | .arrowDown => { m with moveState := { m.moveState with backward := isPressed } }
  | .keyA | .arrowLeft => { m with moveState := { m.moveState with left := isPressed } }
  | .keyD | .arrowRight => { m with moveState := { m.moveState with right := isPressed } }
  | .shiftLeft | .shiftRight => { m with moveState := { m.moveState with sprint := isPressed } }
  | .space =>
      let m1 := { m with moveState := { m.moveState with jump := isPressed } }
      if isPressed then
        if m1.isGrounded then
          { m1 with pendingJump := true, jumpBoost := m1.moveState.forward }
        else m1
      else
        { m1 with pendingJump := false, jumpBoost := false }
  | .other => m

/-- resetJumpState (lines 236-239): drops both jump latches. -/
def resetJumpState (m : Movement) : Movement :=
  { m with pendingJump := false, jumpBoost := false }

/-- The resolved configuration record: the keys of DEFAULT_CONFIG (canonical
variant). -/
structure Config where
  floorLevel : ℚ
  playerHeight : ℚ
  gravity : ℚ
  walkAcceleration : ℚ
  sprintAcceleration : ℚ
  movementDamping : ℚ
  jumpSpeed : ℚ
  capsuleRadius : ℚ
  capsuleMass : ℚ
  deriving DecidableEq, Repr

/-- DEFAULT_CONFIG (canonical variant, lines 289-299). -/
def DEFAULT_CONFIG : Config :=
  { floorLevel := 0
    playerHeight := 8/5
    gravity := 28
    walkAcceleration := 5
    sprintAcceleration := 10
    movementDamping := 12
    jumpSpeed := 12
    capsuleRadius := 2/5
    capsuleMass := 80 }

/-- The recognized configuration keys of an options bag: each is either
supplied (some value) or omitted (none). The setup extracts terrainBounds,
terrainData, dynamicCapsule and capsuleOffset first and spreads the rest over
DEFAULT_CONFIG. -/
structure ConfigOptions where
  floorLevel : Option ℚ := none
  playerHeight : Option ℚ := none
  gravity : Option ℚ := none
  walkAcceleration : Option ℚ := none
  sprintAcceleration : Option ℚ := none
  movementDamping : Option ℚ := none
  jumpSpeed : Option ℚ := none
  capsuleRadius : Option ℚ := none
  capsuleMass : Option ℚ := none
  deriving DecidableEq, Repr

/-- The config merge of firstPersonSetup (line 406),
config = spread of DEFAULT_CONFIG then the supplied overrides: a supplied key
wins, an omitted key keeps its default. -/
def mergeConfig (o : ConfigOptions) : Config :=
  { floorLevel := o.floorLevel.getD DEFAULT_CONFIG.floorLevel
    playerHeight := o.playerHeight.getD DEFAULT_CONFIG.playerHeight
    gravity := o.gravity.getD DEFAULT_CONFIG.gravity
    walkAcceleration := o.walkAcceleration.getD DEFAULT_CONFIG.walkAcceleration
    sprintAcceleration := o.sprintAcceleration.getD DEFAULT_CONFIG.sprintAcceleration
    movementDamping := o.movementDamping.getD DEFAULT_CONFIG.movementDamping
    jumpSpeed := o.jumpSpeed.getD DEFAULT_CONFIG.jumpSpeed
    capsuleRadius := o.capsuleRadius.getD DEFAULT_CONFIG.capsuleRadius
    capsuleMass := o.capsuleMass.getD DEFAULT_CONFIG.capsuleMass }

/-- JavaScript array indexing arr[i]: undefined (none) off the ends and at a
negative index. -/
def jsGet {α : Type} (l : List α) (i : ℤ) : Option α :=
  if 0 ≤ i then l.get? i.toNat else none

/-- THREE.MathUtils.clamp(value, min, max) = Math.max(min, Math.min(max, value)). -/
def jsClamp (v lo hi : ℚ) : ℚ := max lo (min hi v)

/-- THREE.MathUtils.lerp(x, y, t) = (1 - t) * x + t * y. -/
def jsLerp (x y t : ℚ) : ℚ := (1 - t) * x + t * y

/-- A terrain height grid as createEnvironment builds it: a row-major list of
rows plus cell metrics. rows and cols are the advertised dimensions (integers
in every in-repo construction) and need not match the list lengths; the
sampler's undefined fallbacks cover a mismatch. -/
structure TerrainData where
  grid : List (List ℚ)
  rows : ℤ
  cols : ℤ
  cellSizeX : ℚ
  cellSizeZ : ℚ
  halfWidth : ℚ
  halfHeight : ℚ

/-- safeRows = Math.max(rows || 0, 1). -/
def TerrainData.safeRows (d : TerrainData) : ℤ := max d.rows 1

/-- safeCols = Math.max(cols || 0, 1). -/
def TerrainData.safeCols (d : TerrainData) : ℤ := max d.cols 1

/-- stepX = cellSizeX || 1 (a zero cell size falls back to 1). -/
def TerrainData.stepX (d : TerrainData) : ℚ := if d.cellSizeX = 0 then 1 else d.cellSizeX

/-- stepZ = cellSizeZ || 1. -/
def TerrainData.stepZ (d : TerrainData) : ℚ := if d.cellSizeZ = 0 then 1 else d.cellSizeZ

/-- The sampler's fractional grid coordinate fx = (x + halfWidth) / stepX. -/
def TerrainData.fracX (d : TerrainData) (x : ℚ) : ℚ := (x + d.halfWidth) / d.stepX

/-- The sampler's fractional grid coordinate fz = (z + halfHeight) / stepZ. -/
def TerrainData.fracZ (d : TerrainData) (z : ℚ) : ℚ := (z + d.halfHeight) / d.stepZ

/-- clampedFx = clamp(fx, 0, safeCols - 1). -/
def TerrainData.clampedX (d : TerrainData) (x : ℚ) : ℚ :=
  jsClamp (d.fracX x) 0 ((d.safeCols : ℚ) - 1)

/-- clampedFz = clamp(fz, 0, safeRows - 1). -/
def TerrainData.clampedZ (d : TerrainData) (z : ℚ) : ℚ :=
  jsClamp (d.fracZ z) 0 ((d.safeRows : ℚ) - 1)

/-- The bilinear core of createTerrainSampler (lines 264-282), as a function
of the already-clamped fractional grid coordinates: the four edge-clamped
neighbours with the source's undefined fallback chain, then two lerps. -/
def TerrainData.sampleCore (d : TerrainData) (cfx cfz : ℚ) : ℚ :=
  let ix0 : ℤ := ⌊cfx⌋
  let iz0 : ℤ := ⌊cfz⌋
  let ix1 : ℤ := min (ix0 + 1) (d.safeCols - 1)
  let iz1 : ℤ := min (iz0 + 1) (d.safeRows - 1)
  let sx : ℚ := cfx - ix0
  let sz : ℚ := cfz - iz0
  let row0 : List ℚ := (jsGet d.grid iz0).getD []
  let row1 : List ℚ := (jsGet d.grid iz1).getD row0
  let h00 : ℚ := (jsGet row0 ix0).getD 0
  let h10 : ℚ := (jsGet row0 ix1).getD h00
  let h01 : ℚ := (jsGet row1 ix0).getD h00
  let h11 : ℚ := (jsGet row1 ix1).getD h01
  jsLerp (jsLerp h00 h10 sx) (jsLerp h01 h11 sx) sz

/-- The closure createTerrainSampler returns (lines 255-283): NaN on a
non-finite input coordinate, otherwise the edge-clamped bilinear lookup. -/
def terrainSample (d : TerrainData) : JNum → JNum → JNum
  | .num x, .num z => .num (d.sampleCore (d.clampedX x) (d.clampedZ z))
  | _, _ => .nan

/-- The stored height of one grid cell under the sampler's indexing
(undefined rows and entries fall back to [] and 0 as in the source). -/
def gridCell (d : TerrainData) (iz ix : ℤ) : ℚ :=
  (jsGet ((jsGet d.grid iz).getD []) ix).getD 0

/-- terrainBounds as the ground resolver receives them: each bound is a
JavaScript number that may be missing or non-finite. -/
structure JBounds where
  min : JNum
  max : JNum
  deriving DecidableEq, Repr

/-- The record resolver.sample returns. -/
structure GroundSample where
  height : ℚ
  isTerrain : Bool
  deriving DecidableEq, Repr

/-- The object createGroundResolver returns. -/
structure GroundResolver where
  fallbackHeight : ℚ
  sample : JNum → JNum → GroundSample

/-- createGroundResolver (lines 201-222): wraps an optional terrain sampler
with a finite fallback height — terrainBounds.max when that is finite,
floorLevel otherwise. With no sampler every sample is the fallback; with one,
a finite sampled height is returned as real terrain and a non-finite one
falls back. The returned height is always a finite rational by construction. -/
def createGroundResolver (sampler : Option (JNum → JNum → JNum))
    (bounds : Option JBounds) (floorLevel : ℚ) : GroundResolver :=
  let fallbackHeight : ℚ :=
    match bounds with
    | some b => match b.max with | .num q => q | .nan => floorLevel
    | none => floorLevel
  match sampler with
  | none => { fallbackHeight := fallbackHeight, sample := fun _ _ => ⟨fallbackHeight, false⟩ }
  | some f =>
      { fallbackHeight := fallbackHeight
        sample := fun x z =>
          match f x z with
          | .num h => ⟨h, true⟩
          | .nan => ⟨fallbackHeight, false⟩ }

/-- The per-session environment the canonical firstPersonSetup closes over:
the resolved config, the capsuleOffset option (defaulting to (0,0,0)), the
optional terrain sampler, the derived terrain bounds (finite rationals in
every in-repo construction — derivedBounds always carries min and max), and
two parameters abstracting the camera basis. rightAxis/forwardAxis are the
horizontal unit vectors along which PointerLockControls.moveRight/moveForward
displace the camera; their values follow the mouse and are external to this
model. invSqrt2 stands for the floating-point value of 1/√2: a non-zero
desired direction built from the key booleans has squared length 1 or 2, and
Vector3.normalize scales the diagonal case by the irrational 1/√2, which an
exact-rational state cannot hold, so that one factor is kept as a parameter
(none of the verified scenarios exercise it). -/
structure Session where
  cfg : Config
  capsuleOffset : Vec3
  sampler : Option (JNum → JNum → JNum)
  boundsMin : ℚ
  boundsMax : ℚ
  rightAxis : ℚ × ℚ
  forwardAxis : ℚ × ℚ
  invSqrt2 : ℚ

/-- The mutable state outside the movement record: the camera/controls-object
position (one position — controls.getObject() is the camera) and the optional
dynamic capsule's position. -/
structure PlayerState where
  movement : Movement
  camPos : Vec3
  capsulePos : Option Vec3

/-- setCameraPosition (lines 443-453): writes the controls object and camera
position, and, when a dynamic capsule is attached, the capsule position
shifted by capsuleOffset. -/
def setCameraPosition (env : Session) (x y z : ℚ) (s : PlayerState) : PlayerState :=
  { s with
    camPos := ⟨x, y, z⟩
    capsulePos := s.capsulePos.map fun _ =>
      ⟨x + env.capsuleOffset.x, y + env.capsuleOffset.y, z + env.capsuleOffset.z⟩ }

/-- The ground resolver the canonical firstPersonSetup constructs
(lines 422-426) from the session's sampler and bounds. -/
def sessionResolver (env : Session) : GroundResolver :=
  createGroundResolver env.sampler (some ⟨.num env.boundsMin, .num env.boundsMax⟩)
    env.cfg.floorLevel

/-- The camera height the spawn snap (lines 460-463 and 508-512) sets: the
resolved ground height at the camera's horizontal position plus playerHeight. -/
def spawnCameraY (env : Session) (cx cz : ℚ) : ℚ :=
  ((sessionResolver env).sample (.num cx) (.num cz)).height + env.cfg.playerHeight

/-- Number(bool). -/
def boolNum (b : Bool) : ℚ := if b then 1 else 0

/-- Kinematic update, damping block (lines 518-519):
v.x -= v.x * movementDamping * delta, and likewise v.z. -/
def dampingStep (cfg : Config) (delta : ℚ) (m : Movement) : Movement :=
  { m with velocity := { m.velocity with
      x := m.velocity.x - m.velocity.x * cfg.movementDamping * delta
      z := m.velocity.z - m.velocity.z * cfg.movementDamping * delta } }

/-- Kinematic update, direction block (lines 522-526): direction.x/z are set
from the key booleans (direction.y is never assigned and keeps its value,
0 throughout every session), then the vector is normalized when its squared
length is positive. That squared length is 1 (single axis — normalize changes
nothing) or 2 (diagonal — normalize scales by 1/√2, kept as the invSqrt2
parameter, see Session). -/
def directionStep (invSqrt2 : ℚ) (m : Movement) : Movement :=
  let dz : ℚ := boolNum m.moveState.forward - boolNum m.moveState.backward
  let dx : ℚ := boolNum m.moveState.right - boolNum m.moveState.left
  let dy : ℚ := m.direction.y
  let len2 : ℚ := dx * dx + dy * dy + dz * dz
  let dir : Vec3 :=
    if 0 < len2 then
      if len2 = 1 then ⟨dx, dy, dz⟩ else ⟨dx * invSqrt2, dy * invSqrt2, dz * invSqrt2⟩
    else ⟨dx, dy, dz⟩
  { m with direction := dir }

/-- Kinematic update, acceleration block (lines 528-538): each axis is pushed
only while one of its keys is held, by sprint or walk acceleration. -/
def accelStep (cfg : Config) (delta : ℚ) (m : Movement) : Movement :=
  let acceleration : ℚ :=
    if m.moveState.sprint then cfg.sprintAcceleration else cfg.walkAcceleration
  let vz : ℚ :=
    if m.moveState.forward || m.moveState.backward then
      m.velocity.z - m.direction.z * acceleration * delta
    else m.velocity.z
  let vx : ℚ :=
    if m.moveState.left || m.moveState.right then
      m.velocity.x - m.direction.x * acceleration * delta
    else m.velocity.x
  { m with velocity := { m.velocity with x := vx, z := vz } }

/-- Kinematic update, jump block (lines 540-546): a latched jump while
grounded sets velocity.y to jumpSpeed (an assignment, not an added impulse),
drops the grounded flag, and, when the boost was latched, subtracts
walkAcceleration * 0.1 from velocity.z. -/
def jumpStep (cfg : Config) (m : Movement) : Movement :=
  if m.pendingJump && m.isGrounded then
    { m with
      velocity := { m.velocity with
        y := cfg.jumpSpeed
        z := if m.jumpBoost then m.velocity.z - cfg.walkAcceleration * (1/10)
             else m.velocity.z }
      isGrounded := false }
  else m

/-- Kinematic update, gravity (line 550): velocity.y -= gravity * delta. -/
def gravityStep (cfg : Config) (delta : ℚ) (m : Movement) : Movement :=
  { m with velocity := { m.velocity with y := m.velocity.y - cfg.gravity * delta } }

/-- The movement-record part of one kinematic frame, in source order:
damping, direction, acceleration, jump, unconditional latch reset, gravity. -/
def kinMove (cfg : Config) (invSqrt2 delta : ℚ) (m : Movement) : Movement :=
  gravityStep cfg delta
    (resetJumpState (jumpStep cfg (accelStep cfg delta (directionStep invSqrt2 (dampingStep cfg delta m)))))

/-- Kinematic update, integration block (lines 552-557):
controls.moveRight(-v.x * delta) and controls.moveForward(-v.z * delta)
displace the camera along the horizontal basis, then setCameraPosition
applies the vertical velocity to the height. -/
def integrateStep (env : Session) (delta : ℚ) (s : PlayerState) : PlayerState :=
  let v := s.movement.velocity
  let px : ℚ := s.camPos.x + env.rightAxis.1 * (-v.x * delta) + env.forwardAxis.1 * (-v.z * delta)
  let pz : ℚ := s.camPos.z + env.rightAxis.2 * (-v.x * delta) + env.forwardAxis.2 * (-v.z * delta)
  setCameraPosition env px (s.camPos.y + v.y * delta) pz s

/-- Kinematic update, ground clamp (lines 559-595). With a sampler: a finite
sample at the new horizontal position whose target height is at or above the
camera snaps the camera up, zeroes only a downward vertical velocity, and
grounds; any other outcome (higher camera, or a NaN sample) leaves the state
and marks airborne. Without a sampler: the flat clamp against
terrainBounds.min + playerHeight, fully zeroing vertical velocity. -/
def groundClampStep (env : Session) (s : PlayerState) : PlayerState :=
  match env.sampler with
  | some sampler =>
      match sampler (.num s.camPos.x) (.num s.camPos.z) with
      | .num surfaceHeight =>
          let targetY : ℚ := surfaceHeight + env.cfg.playerHeight
          if s.camPos.y ≤ targetY then
            let s1 := setCameraPosition env s.camPos.x targetY s.camPos.z s
            let s2 :=
              if s1.movement.velocity.y < 0 then
                { s1 with movement := { s1.movement with
                    velocity := { s1.movement.velocity with y := 0 } } }
              else s1
            { s2 with movement := { s2.movement with isGrounded := true } }
          else { s with movement := { s.movement with isGrounded := false } }
      | .nan => { s with movement := { s.movement with isGrounded := false } }
  | none =>
      let minY : ℚ := env.boundsMin + env.cfg.playerHeight
      if s.camPos.y ≤ minY then
        let s1 := setCameraPosition env s.camPos.x minY s.camPos.z s
        { s1 with movement := { s1.movement with
            velocity := { s1.movement.velocity with y := 0 }
            isGrounded := true } }
      else { s with movement := { s.movement with isGrounded := false } }

/-- updateKinematicMovement (lines 517-596): one kinematic frame. -/
def updateKinematicMovement (env : Session) (delta : ℚ) (s : PlayerState) : PlayerState :=
  groundClampStep env
    (integrateStep env delta
      { s with movement := kinMove env.cfg env.invSqrt2 delta s.movement })

/-- player.update (lines 603-611): kinematic while pointer-locked, otherwise
zero velocity and direction and drop the jump latch. -/
def playerUpdate (env : Session) (isLocked : Bool) (delta : ℚ) (s : PlayerState) : PlayerState :=
  if isLocked then updateKinematicMovement env delta s
  else { s with movement :=
          resetJumpState { s.movement with velocity := Vec3.zero, direction := Vec3.zero } }

/-- The unlock listener (lines 470-487): clear every held key, zero velocity,
drop the jump latch, resample the ground at the current horizontal position,
resnap the camera (and capsule) to that height plus playerHeight, and force
grounded. -/
def unlockHandler (env : Session) (s : PlayerState) : PlayerState :=
  let m1 := { s.movement with moveState := MoveKeys.allOff }
  let m2 := { m1 with velocity := Vec3.zero }
  let m3 := resetJumpState m2
  let unlockedGround : ℚ :=
    ((sessionResolver env).sample (.num s.camPos.x) (.num s.camPos.z)).height
  let s1 := setCameraPosition env s.camPos.x (unlockedGround + env.cfg.playerHeight)
    s.camPos.z { s with movement := m3 }
  { s1 with movement := { s1.movement with isGrounded := true } }

/-- The guard of the jump block (line 540): the frame assigns
velocity.y := jumpSpeed exactly when this holds at the start of jump
processing — and the earlier damping, direction and acceleration blocks
touch neither pendingJump nor isGrounded, so the frame-start value decides. -/
def jumpFires (s : PlayerState) : Bool :=
  s.movement.pendingJump && s.movement.isGrounded

/-- How many of the frames driven by the given per-frame deltas apply the
jump (satisfy the jump block's guard), running updateKinematicMovement
between frames. -/
def countJumpFires (env : Session) : PlayerState → List ℚ → ℕ
  | _, [] => 0
  | s, d :: ds =>
      (if jumpFires s then 1 else 0) + countJumpFires env (updateKinematicMovement env d s) ds

/-- The state right after the keydown handler processes Space. -/
def afterSpaceDown (s : PlayerState) : PlayerState :=
  { s with movement := handleKey s.movement .space true }

/-- The terrainData shapes player.keepOnTerrain distinguishes (lines 632-645):
a callable sampler, a bare array, or a grid object with a cols count. -/
inductive TerrainArg where
  | fn (f : ℚ → ℚ → ℚ)
  | arr (a : List ℚ)
  | gridObj (grid : List ℚ) (cols : ℤ)

/-- The ground height player.keepOnTerrain looks up: floor-indexed, with no
interpolation, and `|| 0` on anything missing. For the bare-array shape the
source indexes at Math.floor(z) * Math.sqrt(length) + Math.floor(x); when the
length is not a perfect square and Math.floor(z) ≠ 0 that index is
irrational, the element access is undefined and the fallback yields 0; when
Math.floor(z) = 0 the square root drops out of the index. A falsy looked-up
value (0, or undefined off the end or at a negative index) falls back to 0,
which Option.getD 0 models exactly on these grids of finite numbers. The
gridObj branch requires a truthy cols, so cols = 0 leaves the initial 0. -/
def keepOnTerrainY (td : TerrainArg) (x z : ℚ) : ℚ :=
  match td with
  | .fn f => f x z
  | .arr a =>
      let n : ℕ := a.length
      let size : ℕ := Nat.sqrt n
      if size * size = n then (jsGet a (⌊z⌋ * size + ⌊x⌋)).getD 0
      else if ⌊z⌋ = 0 then (jsGet a ⌊x⌋).getD 0
      else 0
  | .gridObj grid cols =>
      if cols = 0 then 0 else (jsGet grid (⌊z⌋ * cols + ⌊x⌋)).getD 0

/-- player.keepOnTerrain (lines 627-648): when both this.position and
terrainData are present, raise position.y to at least the looked-up ground
height plus playerHeight, touching nothing else; otherwise (no position —
as on the object firstPersonSetup actually returns, which has no position
property — or a null terrainData) change nothing. -/
def keepOnTerrain (pos : Option Vec3) (td : Option TerrainArg) (playerHeight : ℚ) : Option Vec3 :=
  match pos, td with
  | some p, some t => some { p with y := max p.y (keepOnTerrainY t p.x p.z + playerHeight) }
  | p, _ => p

/-- Modelled from the spec: the physics-mode ground-correction step of the
movement integrator (spec section 4.6 step 5 and end-to-end scenario C). The
physics-delegated integrator is missing from the repository's source files:
the shipped firstPersonSetup ignores the physics/usePhysics options (its
usingPhysics getter always returns false) and the animate loops in main.js
and its variants write the capsule velocity directly with no terrain-based
vertical correction; only callers requesting physics mode exist. Following
the spec's words: with a finite terrain sample, the target capsule-centre
height is groundHeight + capsuleHalfHeight, and a deviation beyond the 0.02
threshold adds a corrective vertical velocity of deviation / max(delta, 0.016)
clamped to ±10. The deviation is oriented the way scenario C fixes it —
a capsule 0.3 above the required height has deviation +0.3, i.e. deviation =
capsule height − target. -/
def physicsGroundCorrection (sample : JNum) (capsuleY capsuleHalfHeight delta vy : ℚ) : ℚ :=
  match sample with
  | .num groundHeight =>
      let target : ℚ := groundHeight + capsuleHalfHeight
      let deviation : ℚ := capsuleY - target
      if 2/100 < |deviation| then vy + jsClamp (deviation / max delta (2/125)) (-10) 10
      else vy
  | .nan => vy

/-- A concrete flat-world session (no terrain sampler, bounds 0, default
config) used to instantiate theorems with hypotheses. -/
def exampleSession : Session :=
  { cfg := DEFAULT_CONFIG
    capsuleOffset := Vec3.zero
    sampler := none
    boundsMin := 0
    boundsMax := 0
    rightAxis := (1, 0)
    forwardAxis := (0, 1)
    invSqrt2 := 408/577 }

/-- A concrete spawned state: fresh movement record, camera at eye height. -/
def exampleState : PlayerState :=
  { movement := initMovementState
    camPos := ⟨0, 8/5, 0⟩
    capsulePos := some ⟨0, 8/5, 0⟩ }

/-- A concrete movement record with the jump latch and boost set. -/
def exampleJumpMovement : Movement :=
  { initMovementState with pendingJump := true, jumpBoost := true }

@[simp] lemma dampingStep_moveState (cfg : Config) (d : ℚ) (m : Movement) :
    (dampingStep cfg d m).moveState = m.moveState := rfl

@[simp] lemma dampingStep_direction (cfg : Config) (d : ℚ) (m : Movement) :
    (dampingStep cfg d m).direction = m.direction := rfl

@[simp] lemma dampingStep_pendingJump (cfg : Config) (d : ℚ) (m : Movement) :
    (dampingStep cfg d m).pendingJump = m.pendingJump := rfl

@[simp] lemma dampingStep_isGrounded (cfg : Config) (d : ℚ) (m : Movement) :
    (dampingStep cfg d m).isGrounded = m.isGrounded := rfl

@[simp] lemma dampingStep_jumpBoost (cfg : Config) (d : ℚ) (m : Movement) :
    (dampingStep cfg d m).jumpBoost = m.jumpBoost := rfl

@[simp] lemma directionStep_moveState (i : ℚ) (m : Movement) :
    (directionStep i m).moveState = m.moveState := rfl

@[simp] lemma directionStep_velocity (i : ℚ) (m : Movement) :
    (directionStep i m).velocity = m.velocity := rfl

@[simp] lemma directionStep_pendingJump (i : ℚ) (m : Movement) :
    (directionStep i m).pendingJump = m.pendingJump := rfl

@[simp] lemma directionStep_isGrounded (i : ℚ) (m : Movement) :
    (directionStep i m).isGrounded = m.isGrounded := rfl

@[simp] lemma directionStep_jumpBoost (i : ℚ) (m : Movement) :
    (directionStep i m).jumpBoost = m.jumpBoost := rfl

@[simp] lemma accelStep_moveState (cfg : Config) (d : ℚ) (m : Movement) :
    (accelStep cfg d m).moveState = m.moveState := rfl

@[simp] lemma accelStep_direction (cfg : Config) (d : ℚ) (m : Movement) :
    (accelStep cfg d m).direction = m.direction := rfl

@[simp] lemma accelStep_pendingJump (cfg : Config) (d : ℚ) (m : Movement) :
    (accelStep cfg d m).pendingJump = m.pendingJump := rfl

@[simp] lemma accelStep_isGrounded (cfg : Config) (d : ℚ) (m : Movement) :
    (accelStep cfg d m).isGrounded = m.isGrounded := rfl

@[simp] lemma accelStep_jumpBoost (cfg : Config) (d : ℚ) (m : Movement) :
    (accelStep cfg d m).jumpBoost = m.jumpBoost := rfl

@[simp] lemma accelStep_velocity_y (cfg : Config) (d : ℚ) (m : Movement) :
    (accelStep cfg d m).velocity.y = m.velocity.y := rfl

@[simp] lemma jumpStep_moveState (cfg : Config) (m : Movement) :
    (jumpStep cfg m).moveState = m.moveState := by
  unfold jumpStep; split <;> rfl

@[simp] lemma jumpStep_direction (cfg : Config) (m : Movement) :
    (jumpStep cfg m).direction = m.direction := by
  unfold jumpStep; split <;> rfl

@[simp] lemma jumpStep_pendingJump (cfg : Config) (m : Movement) :
    (jumpStep cfg m).pendingJump = m.pendingJump := by
  unfold jumpStep; split <;> rfl

@[simp] lemma jumpStep_jumpBoost (cfg : Config) (m : Movement) :
    (jumpStep cfg m).jumpBoost = m.jumpBoost := by
  unfold jumpStep; split <;> rfl

@[simp] lemma resetJumpState_moveState (m : Movement) :
    (resetJumpState m).moveState = m.moveState := rfl

@[simp] lemma resetJumpState_velocity (m : Movement) :
    (resetJumpState m).velocity = m.velocity := rfl

@[simp] lemma resetJumpState_direction (m : Movement) :
    (resetJumpState m).direction = m.direction := rfl

@[simp] lemma resetJumpState_isGrounded (m : Movement) :
    (resetJumpState m).isGrounded = m.isGrounded := rfl

@[simp] lemma resetJumpState_pendingJump (m : Movement) :
    (resetJumpState m).pendingJump = false := rfl

@[simp] lemma resetJumpState_jumpBoost (m : Movement) :
    (resetJumpState m).jumpBoost = false := rfl

@[simp] lemma gravityStep_moveState (cfg : Config) (d : ℚ) (m : Movement) :
    (gravityStep cfg d m).moveState = m.moveState := rfl

@[simp] lemma gravityStep_direction (cfg : Config) (d : ℚ) (m : Movement) :
    (gravityStep cfg d m).direction = m.direction := rfl

@[simp] lemma gravityStep_pendingJump (cfg : Config) (d : ℚ) (m : Movement) :
    (gravityStep cfg d m).pendingJump = m.pendingJump := rfl

@[simp] lemma gravityStep_isGrounded (cfg : Config) (d : ℚ) (m : Movement) :
    (gravityStep cfg d m).isGrounded = m.isGrounded := rfl

@[simp] lemma gravityStep_jumpBoost (cfg : Config) (d : ℚ) (m : Movement) :
    (gravityStep cfg d m).jumpBoost = m.jumpBoost := rfl

@[simp] lemma gravityStep_velocity_x (cfg : Config) (d : ℚ) (m : Movement) :
    (gravityStep cfg d m).velocity.x = m.velocity.x := rfl

@[simp] lemma gravityStep_velocity_z (cfg : Config) (d : ℚ) (m : Movement) :
    (gravityStep cfg d m).velocity.z = m.velocity.z := rfl

@[simp] lemma integrateStep_movement (env : Session) (d : ℚ) (s : PlayerState) :
    (integrateStep env d s).movement = s.movement := rfl

@[simp] lemma setCameraPosition_movement (env : Session) (x y z : ℚ) (s : PlayerState) :
    (setCameraPosition env x y z s).movement = s.movement := rfl

/-- The ground clamp changes only velocity.y, isGrounded and the positions:
the held keys, direction, jump latches and horizontal velocity pass through. -/
lemma groundClampStep_preserves (env : Session) (s : PlayerState) :
    (groundClampStep env s).movement.moveState = s.movement.moveState ∧
    (groundClampStep env s).movement.direction = s.movement.direction ∧
    (groundClampStep env s).movement.pendingJump = s.movement.pendingJump ∧
    (groundClampStep env s).movement.jumpBoost = s.movement.jumpBoost ∧
    (groundClampStep env s).movement.velocity.x = s.movement.velocity.x ∧
    (groundClampStep env s).movement.velocity.z = s.movement.velocity.z := by
  obtain ⟨cfg, off, sampler, bmin, bmax, ra, fa, i2⟩ := env
  unfold groundClampStep
  cases sampler with
  | none =>
      dsimp only
      split <;> simp [setCameraPosition]
  | some f =>
      dsimp only
      cases f (.num s.camPos.x) (.num s.camPos.z) with
      | num q =>
          dsimp only
          split
          · split <;> simp [setCameraPosition]
          · simp
      | nan => simp

/-- The movement projections of one kinematic frame equal those of the
movement pipeline kinMove (the clamp and integration leave them alone). -/
lemma updateKin_proj (env : Session) (d : ℚ) (s : PlayerState) :
    (updateKinematicMovement env d s).movement.moveState
        = (kinMove env.cfg env.invSqrt2 d s.movement).moveState ∧
    (updateKinematicMovement env d s).movement.direction
        = (kinMove env.cfg env.invSqrt2 d s.movement).direction ∧
    (updateKinematicMovement env d s).movement.pendingJump
        = (kinMove env.cfg env.invSqrt2 d s.movement).pendingJump ∧
    (updateKinematicMovement env d s).movement.jumpBoost
        = (kinMove env.cfg env.invSqrt2 d s.movement).jumpBoost ∧
    (updateKinematicMovement env d s).movement.velocity.x
        = (kinMove env.cfg env.invSqrt2 d s.movement).velocity.x ∧
    (updateKinematicMovement env d s).movement.velocity.z
        = (kinMove env.cfg env.invSqrt2 d s.movement).velocity.z := by
  unfold updateKinematicMovement
  exact groundClampStep_preserves env _

@[simp] lemma kinMove_pendingJump (cfg : Config) (i d : ℚ) (m : Movement) :
    (kinMove cfg i d m).pendingJump = false := rfl

@[simp] lemma kinMove_jumpBoost (cfg : Config) (i d : ℚ) (m : Movement) :
    (kinMove cfg i d m).jumpBoost = false := rfl

@[simp] lemma kinMove_moveState (cfg : Config) (i d : ℚ) (m : Movement) :
    (kinMove cfg i d m).moveState = m.moveState := by
  unfold kinMove; simp

/-- Every kinematic frame ends with the jump latch cleared. -/
lemma updateKin_pendingJump_false (env : Session) (d : ℚ) (s : PlayerState) :
    (updateKinematicMovement env d s).movement.pendingJump = false := by
  rw [(updateKin_proj env d s).2.2.1]; rfl

/-- Every kinematic frame ends with the boost latch cleared. -/
lemma updateKin_jumpBoost_false (env : Session) (d : ℚ) (s : PlayerState) :
    (updateKinematicMovement env d s).movement.jumpBoost = false := by
  rw [(updateKin_proj env d s).2.2.2.1]; rfl

/-- With the latch down at frame start, no frame of the run fires the jump. -/
lemma countJumpFires_eq_zero (env : Session) (s : PlayerState)
    (h : s.movement.pendingJump = false) (ds : List ℚ) :
    countJumpFires env s ds = 0 := by
  induction ds generalizing s with
  | nil => rfl
  | cons d ds ih =>
      simp [countJumpFires, jumpFires, h,
        ih (updateKinematicMovement env d s) (updateKin_pendingJump_false env d s)]

/-- The damping, direction and acceleration blocks that run before the jump
block touch neither latch nor grounded flag, so the jump guard evaluated at
the jump block equals the guard at frame start. -/
lemma jumpGuard_eq_frame_start (cfg : Config) (i d : ℚ) (m : Movement) :
    ((accelStep cfg d (directionStep i (dampingStep cfg d m))).pendingJump
      && (accelStep cfg d (directionStep i (dampingStep cfg d m))).isGrounded)
      = (m.pendingJump && m.isGrounded) := rfl

/-- C1. The jump latch is single-shot: from a grounded state, a Space
key-down latches pendingJump and snapshots jumpBoost from the held forward
key; over any non-empty run of kinematic frames with no further key events
the jump guard (which assigns velocity.y := jumpSpeed) holds on exactly one
frame, and both latches are false after the first frame regardless of
outcome; a Space key-down while airborne changes neither latch; a Space
key-up clears both latches unconditionally. -/
theorem C1_jump_latch_single_shot (env : Session) (s : PlayerState)
    (hg : s.movement.isGrounded = true) (ds : List ℚ) (hds : ds ≠ []) :
    (afterSpaceDown s).movement.pendingJump = true ∧
    (afterSpaceDown s).movement.jumpBoost = s.movement.moveState.forward ∧
    countJumpFires env (afterSpaceDown s) ds = 1 ∧
    (updateKinematicMovement env ds.headI (afterSpaceDown s)).movement.pendingJump = false ∧
    (updateKinematicMovement env ds.headI (afterSpaceDown s)).movement.jumpBoost = false ∧
    (∀ t : Movement, t.isGrounded = false →
      (handleKey t .space true).pendingJump = t.pendingJump ∧
      (handleKey t .space true).jumpBoost = t.jumpBoost) ∧
    (∀ t : Movement,
      (handleKey t .space false).pendingJump = false ∧
      (handleKey t .space false).jumpBoost = false) := by
  have h1 : (afterSpaceDown s).movement.pendingJump = true := by
    simp [afterSpaceDown, handleKey, hg]
  have h2 : (afterSpaceDown s).movement.jumpBoost = s.movement.moveState.forward := by
    simp [afterSpaceDown, handleKey, hg]
  have hgr : (afterSpaceDown s).movement.isGrounded = true := by
    simp [afterSpaceDown, handleKey, hg]
  refine ⟨h1, h2, ?_, updateKin_pendingJump_false _ _ _, updateKin_jumpBoost_false _ _ _,
    ?_, ?_⟩
  · obtain ⟨d, rest, rfl⟩ := List.exists_cons_of_ne_nil hds
    have : jumpFires (afterSpaceDown s) = true := by
      simp [jumpFires, h1, hgr]
    simp [countJumpFires, this,
      countJumpFires_eq_zero env _ (updateKin_pendingJump_false env d _) rest]
  · intro t ht
    constructor <;> simp [handleKey, ht]
  · intro t
    constructor <;> simp [handleKey]

/-- C1 witness: a grounded flat-world session, Space pressed, one frame at
delta 1/60 — the jump fires exactly once. -/
theorem C1_witness :
    countJumpFires exampleSession (afterSpaceDown exampleState) [1/60] = 1 :=
  (C1_jump_latch_single_shot exampleSession exampleState rfl [1/60] (by simp)).2.2.1

/-- C2. The kinematic jump consumption: whenever pendingJump and isGrounded
both hold at the start of the jump block, the block assigns velocity.y :=
jumpSpeed (a set, not an added impulse), clears isGrounded, subtracts
walkAcceleration * 0.1 from velocity.z exactly when the boost was latched,
and leaves velocity.x alone; afterwards resetJumpState clears both latches
unconditionally, and every full kinematic frame ends with both cleared. -/
theorem C2_jump_consumes_latch (cfg : Config) (m : Movement)
    (hp : m.pendingJump = true) (hg : m.isGrounded = true) :
    (jumpStep cfg m).velocity.y = cfg.jumpSpeed ∧
    (jumpStep cfg m).isGrounded = false ∧
    (m.jumpBoost = true →
      (jumpStep cfg m).velocity.z = m.velocity.z - cfg.walkAcceleration * (1/10)) ∧
    (m.jumpBoost = false → (jumpStep cfg m).velocity.z = m.velocity.z) ∧
    (jumpStep cfg m).velocity.x = m.velocity.x ∧
    (∀ m' : Movement,
      (resetJumpState m').pendingJump = false ∧ (resetJumpState m').jumpBoost = false) ∧
    (∀ (env : Session) (delta : ℚ) (s : PlayerState),
      (updateKinematicMovement env delta s).movement.pendingJump = false ∧
      (updateKinematicMovement env delta s).movement.jumpBoost = false) := by
  refine ⟨?_, ?_, ?_, ?_, ?_, fun m' => ⟨rfl, rfl⟩,
    fun env d s => ⟨updateKin_pendingJump_false env d s, updateKin_jumpBoost_false env d s⟩⟩
  · simp [jumpStep, hp, hg]
  · simp [jumpStep, hp, hg]
  · intro hb; simp [jumpStep, hp, hg, hb]
  · intro hb; simp [jumpStep, hp, hg, hb]
  · simp [jumpStep, hp, hg]

/-- C2 witness: with the latch and boost set on a fresh grounded record and
the default config, the jump block writes jumpSpeed into velocity.y. -/
theorem C2_witness :
    (jumpStep DEFAULT_CONFIG exampleJumpMovement).velocity.y = DEFAULT_CONFIG.jumpSpeed :=
  (C2_jump_consumes_latch DEFAULT_CONFIG exampleJumpMovement rfl rfl).1

/-- With no movement key held and no latched jump, a kinematic frame scales
both horizontal velocity components by the damping factor 1 − damping·delta. -/
lemma kinMove_velocity_noKeys (cfg : Config) (i d : ℚ) (m : Movement)
    (hf : m.moveState.forward = false) (hb : m.moveState.backward = false)
    (hl : m.moveState.left = false) (hr : m.moveState.right = false)
    (hpj : m.pendingJump = false) :
    (kinMove cfg i d m).velocity.x = m.velocity.x * (1 - cfg.movementDamping * d) ∧
    (kinMove cfg i d m).velocity.z = m.velocity.z * (1 - cfg.movementDamping * d) := by
  unfold kinMove gravityStep resetJumpState jumpStep accelStep directionStep dampingStep
  simp only [hf, hb, hl, hr, hpj, Bool.false_and, Bool.or_self, Bool.false_or, if_false,
    Bool.false_eq_true, ite_false]
  constructor <;> ring

/-- The horizontal velocity of a full kinematic frame under no input. -/
lemma updateKin_velocity_noKeys (env : Session) (d : ℚ) (s : PlayerState)
    (hf : s.movement.moveState.forward = false) (hb : s.movement.moveState.backward = false)
    (hl : s.movement.moveState.left = false) (hr : s.movement.moveState.right = false)
    (hpj : s.movement.pendingJump = false) :
    (updateKinematicMovement env d s).movement.velocity.x
        = s.movement.velocity.x * (1 - env.cfg.movementDamping * d) ∧
    (updateKinematicMovement env d s).movement.velocity.z
        = s.movement.velocity.z * (1 - env.cfg.movementDamping * d) := by
  obtain ⟨hx, hz⟩ := kinMove_velocity_noKeys env.cfg env.invSqrt2 d s.movement hf hb hl hr hpj
  exact ⟨((updateKin_proj env d s).2.2.2.2.1).trans hx,
    ((updateKin_proj env d s).2.2.2.2.2).trans hz⟩

/-- The session the C3 instances run in: flat world, default config except
gravity 0 (movementDamping keeps its default 12). -/
def cexSession : Session :=
  { cfg := { DEFAULT_CONFIG with gravity := 0 }
    capsuleOffset := Vec3.zero
    sampler := none
    boundsMin := 0
    boundsMax := 0
    rightAxis := (1, 0)
    forwardAxis := (0, 1)
    invSqrt2 := 408/577 }

/-- A grounded state with horizontal velocity (1, 0) and no input. -/
def cexState : PlayerState :=
  { movement := { initMovementState with velocity := ⟨1, 0, 0⟩ }
    camPos := ⟨0, 8/5, 0⟩
    capsulePos := none }

/-- C3 counterexample: with damping 12 and delta 1/4 (damping·delta = 3 > 2)
the undamped claim fails — the damping step overshoots the sign and the
horizontal speed after the frame (2) exceeds the speed before (1), so the
strict decrease claimed for every delta > 0 and damping > 0 is false. -/
theorem C3_counterexample :
    ¬ (Real.sqrt (((updateKinematicMovement cexSession (1/4) cexState).movement.velocity.x : ℝ)^2
          + ((updateKinematicMovement cexSession (1/4) cexState).movement.velocity.z : ℝ)^2)
        < Real.sqrt ((cexState.movement.velocity.x : ℝ)^2
          + (cexState.movement.velocity.z : ℝ)^2)) := by
  have h := updateKin_velocity_noKeys cexSession (1/4) cexState rfl rfl rfl rfl rfl
  have hx : (updateKinematicMovement cexSession (1/4) cexState).movement.velocity.x = -2 := by
    rw [h.1]
    norm_num [cexState, cexSession, DEFAULT_CONFIG, initMovementState]
  have hz : (updateKinematicMovement cexSession (1/4) cexState).movement.velocity.z = 0 := by
    rw [h.2]
    norm_num [cexState, initMovementState]
  have hx0 : cexState.movement.velocity.x = 1 := rfl
  have hz0 : cexState.movement.velocity.z = 0 := rfl
  rw [hx, hz, hx0, hz0]
  apply not_lt.mpr
  apply Real.sqrt_le_sqrt
  push_cast
  norm_num

/-- C3 amended: with no held movement key, no latched jump, zero gravity and
non-zero horizontal velocity, the horizontal speed strictly decreases over
one kinematic frame for every delta > 0 and damping > 0 with
damping · delta < 2 (the undamped source formula overshoots the sign at
damping · delta ≥ 2, where the decrease fails). -/
theorem C3_damping_monotone (env : Session) (s : PlayerState) (delta : ℚ)
    (hf : s.movement.moveState.forward = false)
    (hb : s.movement.moveState.backward = false)
    (hl : s.movement.moveState.left = false)
    (hr : s.movement.moveState.right = false)
    (hpj : s.movement.pendingJump = false)
    (_hgrav : env.cfg.gravity = 0)
    (hv : ¬ (s.movement.velocity.x = 0 ∧ s.movement.velocity.z = 0))
    (hd : 0 < delta) (hdamp : 0 < env.cfg.movementDamping)
    (hover : env.cfg.movementDamping * delta < 2) :
    Real.sqrt (((updateKinematicMovement env delta s).movement.velocity.x : ℝ)^2
        + ((updateKinematicMovement env delta s).movement.velocity.z : ℝ)^2)
      < Real.sqrt ((s.movement.velocity.x : ℝ)^2 + (s.movement.velocity.z : ℝ)^2) := by
  obtain ⟨hx, hz⟩ := updateKin_velocity_noKeys env delta s hf hb hl hr hpj
  rw [hx, hz]
  set a : ℝ := (s.movement.velocity.x : ℝ) with ha
  set b : ℝ := (s.movement.velocity.z : ℝ) with hbdef
  have hdp : (0 : ℝ) < (env.cfg.movementDamping : ℝ) * (delta : ℝ) := by
    have h1 : (0 : ℝ) < (delta : ℝ) := by exact_mod_cast hd
    have h2 : (0 : ℝ) < (env.cfg.movementDamping : ℝ) := by exact_mod_cast hdamp
    positivity
  have hlt2 : (env.cfg.movementDamping : ℝ) * (delta : ℝ) < 2 := by exact_mod_cast hover
  set c : ℝ := 1 - (env.cfg.movementDamping : ℝ) * (delta : ℝ) with hc
  have habs : |c| < 1 := abs_lt.mpr ⟨by simp [hc]; linarith, by simp [hc]; linarith⟩
  have hS : 0 < a ^ 2 + b ^ 2 := by
    rcases not_and_or.mp hv with h | h
    · have ha0 : a ≠ 0 := by
        simp only [ha]; exact_mod_cast h
      have : 0 < a ^ 2 := lt_of_le_of_ne (sq_nonneg a) (Ne.symm (pow_ne_zero 2 ha0))
      nlinarith [sq_nonneg b]
    · have hb0 : b ≠ 0 := by
        simp only [hbdef]; exact_mod_cast h
      have : 0 < b ^ 2 := lt_of_le_of_ne (sq_nonneg b) (Ne.symm (pow_ne_zero 2 hb0))
      nlinarith [sq_nonneg a]
  have hcast : ((s.movement.velocity.x * (1 - env.cfg.movementDamping * delta) : ℚ) : ℝ) ^ 2
      + ((s.movement.velocity.z * (1 - env.cfg.movementDamping * delta) : ℚ) : ℝ) ^ 2
      = c ^ 2 * (a ^ 2 + b ^ 2) := by
    push_cast
    rw [hc, ha, hbdef]
    ring
  rw [hcast, Real.sqrt_mul (sq_nonneg c), Real.sqrt_sq_eq_abs]
  calc |c| * Real.sqrt (a ^ 2 + b ^ 2)
      < 1 * Real.sqrt (a ^ 2 + b ^ 2) :=
        mul_lt_mul_of_pos_right habs (Real.sqrt_pos.mpr hS)
    _ = Real.sqrt (a ^ 2 + b ^ 2) := one_mul _

/-- C3 witness: damping 12, delta 1/60 (damping·delta = 1/5 < 2), velocity
(1, 0): one frame strictly reduces the horizontal speed. -/
theorem C3_witness :
    Real.sqrt (((updateKinematicMovement cexSession (1/60) cexState).movement.velocity.x : ℝ)^2
        + ((updateKinematicMovement cexSession (1/60) cexState).movement.velocity.z : ℝ)^2)
      < Real.sqrt ((cexState.movement.velocity.x : ℝ)^2
        + (cexState.movement.velocity.z : ℝ)^2) :=
  C3_damping_monotone cexSession cexState (1/60) rfl rfl rfl rfl rfl rfl
    (by simp [cexState, initMovementState]) (by norm_num)
    (by norm_num [cexSession, DEFAULT_CONFIG])
    (by norm_num [cexSession, DEFAULT_CONFIG])

/-- The configuration of end-to-end scenario A: walkAcceleration 50,
movementDamping 12, everything else at its default. -/
def c4cfg : Config := { DEFAULT_CONFIG with walkAcceleration := 50, movementDamping := 12 }

/-- Only the forward key held. -/
def c4keys : MoveKeys := { MoveKeys.allOff with forward := true }

/-- The scenario-A session: flat world terrainBounds = {min 0, max 0}, no
terrain sampler, c4cfg; camera basis and the normalize parameter are left
arbitrary (they cannot influence velocities). -/
def c4session (ra fa : ℚ × ℚ) (i2 : ℚ) : Session :=
  { cfg := c4cfg
    capsuleOffset := Vec3.zero
    sampler := none
    boundsMin := 0
    boundsMax := 0
    rightAxis := ra
    forwardAxis := fa
    invSqrt2 := i2 }

/-- Scenario-A start state: fresh movement record with forward held, zero
velocity, camera at the spawn height. -/
def c4start : PlayerState :=
  { movement := { initMovementState with moveState := c4keys }
    camPos := ⟨0, 8/5, 0⟩
    capsulePos := none }

/-- The state after n kinematic frames of scenario A at delta = 1/60. -/
def c4iter (ra fa : ℚ × ℚ) (i2 : ℚ) (n : ℕ) : PlayerState :=
  (updateKinematicMovement (c4session ra fa i2) (1/60))^[n] c4start

/-- With only forward held and no latched jump, one movement pipeline frame
damps velocity.x, damps and pushes velocity.z, and keeps direction.y at 0. -/
lemma kinMove_velocity_forward (cfg : Config) (i d : ℚ) (m : Movement)
    (hkeys : m.moveState = c4keys) (hpj : m.pendingJump = false)
    (hdy : m.direction.y = 0) :
    (kinMove cfg i d m).velocity.x = m.velocity.x * (1 - cfg.movementDamping * d) ∧
    (kinMove cfg i d m).velocity.z
        = m.velocity.z * (1 - cfg.movementDamping * d) - cfg.walkAcceleration * d ∧
    (kinMove cfg i d m).direction.y = 0 := by
  unfold kinMove gravityStep resetJumpState jumpStep accelStep directionStep dampingStep
  simp only [hkeys, c4keys, MoveKeys.allOff, hdy, hpj, boolNum]
  norm_num
  constructor <;> ring

/-- One scenario-A frame: keys, latch and direction.y are preserved and the
horizontal velocity follows the recurrence v.x ↦ 0.8·v.x,
v.z ↦ 0.8·v.z − 5/6. -/
lemma c4_step (ra fa : ℚ × ℚ) (i2 : ℚ) (s : PlayerState)
    (hkeys : s.movement.moveState = c4keys) (hpj : s.movement.pendingJump = false)
    (hdy : s.movement.direction.y = 0) :
    (updateKinematicMovement (c4session ra fa i2) (1/60) s).movement.moveState = c4keys ∧
    (updateKinematicMovement (c4session ra fa i2) (1/60) s).movement.pendingJump = false ∧
    (updateKinematicMovement (c4session ra fa i2) (1/60) s).movement.direction.y = 0 ∧
    (updateKinematicMovement (c4session ra fa i2) (1/60) s).movement.velocity.x
        = s.movement.velocity.x * (4/5) ∧
    (updateKinematicMovement (c4session ra fa i2) (1/60) s).movement.velocity.z
        = s.movement.velocity.z * (4/5) - 5/6 := by
  have hk := kinMove_velocity_forward (c4session ra fa i2).cfg (c4session ra fa i2).invSqrt2
    (1/60) s.movement hkeys hpj hdy
  have hp := updateKin_proj (c4session ra fa i2) (1/60) s
  refine ⟨?_, updateKin_pendingJump_false _ _ _, ?_, ?_, ?_⟩
  · rw [hp.1, kinMove_moveState, hkeys]
  · rw [hp.2.1]; exact hk.2.2
  · rw [hp.2.2.2.2.1, hk.1]
    norm_num [c4session, c4cfg, DEFAULT_CONFIG]
  · rw [hp.2.2.2.2.2, hk.2.1]
    norm_num [c4session, c4cfg, DEFAULT_CONFIG]

/-- The scenario-A invariant: forward-only keys, no latch, direction.y 0,
velocity.x 0, and velocity.z strictly between −25/6 and 0 (inclusive at 0). -/
lemma c4_P (ra fa : ℚ × ℚ) (i2 : ℚ) : ∀ n : ℕ,
    (c4iter ra fa i2 n).movement.moveState = c4keys ∧
    (c4iter ra fa i2 n).movement.pendingJump = false ∧
    (c4iter ra fa i2 n).movement.direction.y = 0 ∧
    (c4iter ra fa i2 n).movement.velocity.x = 0 ∧
    -(25/6) < (c4iter ra fa i2 n).movement.velocity.z ∧
    (c4iter ra fa i2 n).movement.velocity.z ≤ 0 := by
  intro n
  induction n with
  | zero =>
      have hz : (c4iter ra fa i2 0).movement.velocity.z = 0 := rfl
      exact ⟨rfl, rfl, rfl, rfl, by rw [hz]; norm_num, by rw [hz]⟩
  | succ n ih =>
      obtain ⟨hk, hp, hd, hx, hlow, hup⟩ := ih
      have hs := c4_step ra fa i2 (c4iter ra fa i2 n) hk hp hd
      have hiter : c4iter ra fa i2 (n+1)
          = updateKinematicMovement (c4session ra fa i2) (1/60) (c4iter ra fa i2 n) := by
        simp only [c4iter, Function.iterate_succ_apply']
      rw [hiter]
      refine ⟨hs.1, hs.2.1, hs.2.2.1, ?_, ?_, ?_⟩
      · rw [hs.2.2.2.1, hx]; ring
      · rw [hs.2.2.2.2]; linarith
      · rw [hs.2.2.2.2]; linarith

/-- Scenario A's forward speed strictly builds up every frame:
velocity.z strictly decreases (it is negative in the forward convention). -/
lemma c4_decrease (ra fa : ℚ × ℚ) (i2 : ℚ) (n : ℕ) :
    (c4iter ra fa i2 (n+1)).movement.velocity.z
      < (c4iter ra fa i2 n).movement.velocity.z := by
  obtain ⟨hk, hp, hd, _hx, hlow, hup⟩ := c4_P ra fa i2 n
  have hs := c4_step ra fa i2 (c4iter ra fa i2 n) hk hp hd
  have hiter : c4iter ra fa i2 (n+1)
      = updateKinematicMovement (c4session ra fa i2) (1/60) (c4iter ra fa i2 n) := by
    simp only [c4iter, Function.iterate_succ_apply']
  rw [hiter, hs.2.2.2.2]
  linarith

/-- The horizontal speed of a scenario-A state is the absolute forward
velocity (velocity.x stays 0). -/
lemma c4_speed_abs (ra fa : ℚ × ℚ) (i2 : ℚ) (n : ℕ) :
    Real.sqrt (((c4iter ra fa i2 n).movement.velocity.x : ℝ)^2
        + ((c4iter ra fa i2 n).movement.velocity.z : ℝ)^2)
      = |((c4iter ra fa i2 n).movement.velocity.z : ℝ)| := by
  rw [(c4_P ra fa i2 n).2.2.2.1]
  norm_num
  exact Real.sqrt_sq_eq_abs _

/-- C4. Scenario A: on the flat world with terrainBounds {min 0, max 0} and
playerHeight 1.6 the spawn snap resolves the camera height to 1.6; starting
from zero velocity with only forward held, walkAcceleration 50 and
movementDamping 12, over 60 frames at delta = 1/60 the horizontal speed
strictly increases every frame and never reaches the damping-equilibrium
speed 50/12 on any of those frames. -/
theorem C4_walk_speed_bounded (ra fa : ℚ × ℚ) (i2 cx cz : ℚ) :
    spawnCameraY (c4session ra fa i2) cx cz = 8/5 ∧
    (∀ i : Fin 60,
      Real.sqrt (((c4iter ra fa i2 (i.val+1)).movement.velocity.x : ℝ)^2
          + ((c4iter ra fa i2 (i.val+1)).movement.velocity.z : ℝ)^2) < 50/12 ∧
      Real.sqrt (((c4iter ra fa i2 i.val).movement.velocity.x : ℝ)^2
          + ((c4iter ra fa i2 i.val).movement.velocity.z : ℝ)^2)
        < Real.sqrt (((c4iter ra fa i2 (i.val+1)).movement.velocity.x : ℝ)^2
          + ((c4iter ra fa i2 (i.val+1)).movement.velocity.z : ℝ)^2)) := by
  constructor
  · simp [spawnCameraY, sessionResolver, createGroundResolver, c4session, c4cfg, DEFAULT_CONFIG]
  · intro i
    obtain ⟨-, -, -, -, hlow1, hup1⟩ := c4_P ra fa i2 (i.val+1)
    obtain ⟨-, -, -, -, hlow0, hup0⟩ := c4_P ra fa i2 i.val
    have hdec := c4_decrease ra fa i2 i.val
    have h1 : ((c4iter ra fa i2 (i.val+1)).movement.velocity.z : ℝ) ≤ 0 := by exact_mod_cast hup1
    have h0 : ((c4iter ra fa i2 i.val).movement.velocity.z : ℝ) ≤ 0 := by exact_mod_cast hup0
    have hd : ((c4iter ra fa i2 (i.val+1)).movement.velocity.z : ℝ)
        < ((c4iter ra fa i2 i.val).movement.velocity.z : ℝ) := by exact_mod_cast hdec
    constructor
    · rw [c4_speed_abs, abs_of_nonpos h1]
      have hq : -((c4iter ra fa i2 (i.val+1)).movement.velocity.z) < (50/12 : ℚ) := by
        linarith
      have hr := (Rat.cast_lt (K := ℝ)).mpr hq
      push_cast at hr
      exact hr
    · rw [c4_speed_abs, c4_speed_abs, abs_of_nonpos h1, abs_of_nonpos h0]
      linarith

/-- C5. Unlock resets the session: for every state (any velocity, held keys
and latches), the unlock listener zeroes velocity, clears every held key and
both jump latches, forces grounded, and repositions the camera — and the
capsule when present — to the resolved ground height plus playerHeight at the
current horizontal position (capsuleOffset at its documented default
(0,0,0), as in every in-repo construction). -/
theorem C5_unlock_resets (env : Session) (s : PlayerState)
    (hoff : env.capsuleOffset = Vec3.zero) :
    (unlockHandler env s).movement.velocity = Vec3.zero ∧
    (unlockHandler env s).movement.moveState = MoveKeys.allOff ∧
    (unlockHandler env s).movement.pendingJump = false ∧
    (unlockHandler env s).movement.jumpBoost = false ∧
    (unlockHandler env s).movement.isGrounded = true ∧
    (unlockHandler env s).camPos
        = ⟨s.camPos.x,
            ((sessionResolver env).sample (.num s.camPos.x) (.num s.camPos.z)).height
              + env.cfg.playerHeight,
            s.camPos.z⟩ ∧
    (∀ p : Vec3, s.capsulePos = some p →
      (unlockHandler env s).capsulePos
          = some ⟨s.camPos.x,
              ((sessionResolver env).sample (.num s.camPos.x) (.num s.camPos.z)).height
                + env.cfg.playerHeight,
              s.camPos.z⟩) ∧
    (s.capsulePos = none → (unlockHandler env s).capsulePos = none) := by
  refine ⟨rfl, rfl, rfl, rfl, rfl, rfl, ?_, ?_⟩
  · intro p hp
    simp [unlockHandler, setCameraPosition, hp, hoff, Vec3.zero]
  · intro hp
    simp [unlockHandler, setCameraPosition, hp]

/-- C5 witness: the flat-world session with zero capsule offset — unlock
zeroes the velocity. -/
theorem C5_witness :
    (unlockHandler exampleSession exampleState).movement.velocity = Vec3.zero :=
  (C5_unlock_resets exampleSession exampleState rfl).1

/-- The sampler's effective cell size is never zero. -/
lemma TerrainData.stepX_ne_zero (d : TerrainData) : d.stepX ≠ 0 := by
  unfold TerrainData.stepX
  split
  · exact one_ne_zero
  · rename_i h; exact h

/-- The sampler's effective cell size is never zero. -/
lemma TerrainData.stepZ_ne_zero (d : TerrainData) : d.stepZ ≠ 0 := by
  unfold TerrainData.stepZ
  split
  · exact one_ne_zero
  · rename_i h; exact h

/-- The clamp's upper bound safeCols − 1 is nonnegative. -/
lemma TerrainData.colsHi_nonneg (d : TerrainData) : (0 : ℚ) ≤ (d.safeCols : ℚ) - 1 := by
  have h : (1 : ℤ) ≤ d.safeCols := le_max_right _ _
  have h2 : (1 : ℚ) ≤ (d.safeCols : ℚ) := by exact_mod_cast h
  linarith

/-- The clamp's upper bound safeRows − 1 is nonnegative. -/
lemma TerrainData.rowsHi_nonneg (d : TerrainData) : (0 : ℚ) ≤ (d.safeRows : ℚ) - 1 := by
  have h : (1 : ℤ) ≤ d.safeRows := le_max_right _ _
  have h2 : (1 : ℚ) ≤ (d.safeRows : ℚ) := by exact_mod_cast h
  linarith

/-- A value already inside the clamp range passes through unchanged. -/
lemma jsClamp_eq_self (v lo hi : ℚ) (h1 : lo ≤ v) (h2 : v ≤ hi) : jsClamp v lo hi = v := by
  unfold jsClamp
  rw [min_eq_right h2, max_eq_right h1]

/-- The clamp lands inside [0, hi]. -/
lemma jsClamp_mem (v hi : ℚ) (h : 0 ≤ hi) :
    0 ≤ jsClamp v 0 hi ∧ jsClamp v 0 hi ≤ hi :=
  ⟨le_max_left _ _, max_le h (min_le_left _ _)⟩

/-- Clamping an already-clamped value changes nothing. -/
lemma jsClamp_idem (v hi : ℚ) (h : 0 ≤ hi) :
    jsClamp (jsClamp v 0 hi) 0 hi = jsClamp v 0 hi :=
  jsClamp_eq_self _ _ _ (jsClamp_mem v hi h).1 (jsClamp_mem v hi h).2

/-- The world x-coordinate that represents the clamped fractional position
has that clamped position as its own fractional position, so its clamped
position is the same. -/
lemma TerrainData.clampedX_rep (d : TerrainData) (x : ℚ) :
    d.clampedX (d.clampedX x * d.stepX - d.halfWidth) = d.clampedX x := by
  have hfrac : d.fracX (d.clampedX x * d.stepX - d.halfWidth) = d.clampedX x := by
    unfold TerrainData.fracX
    field_simp
    rw [mul_div_assoc, div_self d.stepX_ne_zero, mul_one]
  unfold TerrainData.clampedX at hfrac ⊢
  rw [hfrac]
  exact jsClamp_idem _ _ d.colsHi_nonneg

/-- z-axis version of clampedX_rep. -/
lemma TerrainData.clampedZ_rep (d : TerrainData) (z : ℚ) :
    d.clampedZ (d.clampedZ z * d.stepZ - d.halfHeight) = d.clampedZ z := by
  have hfrac : d.fracZ (d.clampedZ z * d.stepZ - d.halfHeight) = d.clampedZ z := by
    unfold TerrainData.fracZ
    field_simp
    rw [mul_div_assoc, div_self d.stepZ_ne_zero, mul_one]
  unfold TerrainData.clampedZ at hfrac ⊢
  rw [hfrac]
  exact jsClamp_idem _ _ d.rowsHi_nonneg

/-- Below the low edge the clamp returns 0. -/
lemma TerrainData.clampedX_of_nonpos (d : TerrainData) (x : ℚ) (h : d.fracX x ≤ 0) :
    d.clampedX x = 0 := by
  unfold TerrainData.clampedX jsClamp
  rw [min_eq_right (le_trans h d.colsHi_nonneg), max_eq_left h]

/-- Below the low edge the clamp returns 0. -/
lemma TerrainData.clampedZ_of_nonpos (d : TerrainData) (z : ℚ) (h : d.fracZ z ≤ 0) :
    d.clampedZ z = 0 := by
  unfold TerrainData.clampedZ jsClamp
  rw [min_eq_right (le_trans h d.rowsHi_nonneg), max_eq_left h]

/-- At or beyond the high edge the clamp returns safeCols − 1. -/
lemma TerrainData.clampedX_of_ge (d : TerrainData) (x : ℚ)
    (h : (d.safeCols : ℚ) - 1 ≤ d.fracX x) : d.clampedX x = (d.safeCols : ℚ) - 1 := by
  unfold TerrainData.clampedX jsClamp
  rw [min_eq_left h, max_eq_right d.colsHi_nonneg]

/-- At or beyond the high edge the clamp returns safeRows − 1. -/
lemma TerrainData.clampedZ_of_ge (d : TerrainData) (z : ℚ)
    (h : (d.safeRows : ℚ) - 1 ≤ d.fracZ z) : d.clampedZ z = (d.safeRows : ℚ) - 1 := by
  unfold TerrainData.clampedZ jsClamp
  rw [min_eq_left h, max_eq_right d.rowsHi_nonneg]

/-- The bilinear core at fractional position (0, 0) is the stored corner
cell. -/
lemma sampleCore_zero (d : TerrainData) : d.sampleCore 0 0 = gridCell d 0 0 := by
  simp [TerrainData.sampleCore, gridCell, jsLerp]

/-- The bilinear core at the high corner is the stored corner cell. -/
lemma sampleCore_corner (d : TerrainData) :
    d.sampleCore ((d.safeCols : ℚ) - 1) ((d.safeRows : ℚ) - 1)
      = gridCell d (d.safeRows - 1) (d.safeCols - 1) := by
  have hc : ((d.safeCols : ℚ) - 1) = ((d.safeCols - 1 : ℤ) : ℚ) := by push_cast; ring
  have hr : ((d.safeRows : ℚ) - 1) = ((d.safeRows - 1 : ℤ) : ℚ) := by push_cast; ring
  rw [hc, hr]
  have h1 : min (d.safeCols - 1 + 1) (d.safeCols - 1) = d.safeCols - 1 := by omega
  have h2 : min (d.safeRows - 1 + 1) (d.safeRows - 1) = d.safeRows - 1 := by omega
  simp [TerrainData.sampleCore, Int.floor_intCast, h1, h2, jsLerp, gridCell]

/-- C6. The terrain sampler clamps instead of extrapolating: for every grid
and every pair of finite world coordinates, the sample equals the sample at
the world coordinates whose fractional grid positions are the clamped ones;
in particular a point at or beyond the grid's low corner (fractional
positions ≤ 0 on both axes) returns exactly the stored low-corner cell, and
one at or beyond the high corner returns exactly the stored high-corner
cell. -/
theorem C6_sampler_clamps (d : TerrainData) (x z : ℚ) :
    terrainSample d (.num x) (.num z)
        = terrainSample d (.num (d.clampedX x * d.stepX - d.halfWidth))
            (.num (d.clampedZ z * d.stepZ - d.halfHeight)) ∧
    (d.fracX x ≤ 0 → d.fracZ z ≤ 0 →
      terrainSample d (.num x) (.num z) = .num (gridCell d 0 0)) ∧
    ((d.safeCols : ℚ) - 1 ≤ d.fracX x → (d.safeRows : ℚ) - 1 ≤ d.fracZ z →
      terrainSample d (.num x) (.num z)
        = .num (gridCell d (d.safeRows - 1) (d.safeCols - 1))) := by
  refine ⟨?_, ?_, ?_⟩
  · show JNum.num (d.sampleCore (d.clampedX x) (d.clampedZ z))
        = JNum.num (d.sampleCore (d.clampedX (d.clampedX x * d.stepX - d.halfWidth))
            (d.clampedZ (d.clampedZ z * d.stepZ - d.halfHeight)))
    rw [d.clampedX_rep, d.clampedZ_rep]
  · intro h1 h2
    show JNum.num (d.sampleCore (d.clampedX x) (d.clampedZ z)) = _
    rw [d.clampedX_of_nonpos x h1, d.clampedZ_of_nonpos z h2, sampleCore_zero]
  · intro h1 h2
    show JNum.num (d.sampleCore (d.clampedX x) (d.clampedZ z)) = _
    rw [d.clampedX_of_ge x h1, d.clampedZ_of_ge z h2, sampleCore_corner]

/-- A concrete 2×2 grid for the C6 witness. -/
def exampleGrid : TerrainData :=
  { grid := [[1, 2], [3, 4]]
    rows := 2
    cols := 2
    cellSizeX := 1
    cellSizeZ := 1
    halfWidth := 1
    halfHeight := 1 }

/-- C6 witness: far outside the 2×2 grid on the high side, the sample is the
stored high-corner height. -/
theorem C6_witness :
    terrainSample exampleGrid (.num 100) (.num 100)
      = .num (gridCell exampleGrid (exampleGrid.safeRows - 1) (exampleGrid.safeCols - 1)) :=
  (C6_sampler_clamps exampleGrid 100 100).2.2
    (by norm_num [TerrainData.fracX, TerrainData.stepX, TerrainData.safeCols, exampleGrid])
    (by norm_num [TerrainData.fracZ, TerrainData.stepZ, TerrainData.safeRows, exampleGrid])

/-- C7. The ground resolver is total and finite: its fallback height is the
terrain bounds' max when that is finite and floorLevel otherwise; with no
sampler every sample is the fallback with isTerrain = false; with a sampler,
a NaN sample falls back with isTerrain = false and a finite sample is
returned as-is with isTerrain = true — in every case the height is a finite
rational by construction, and nothing is thrown. The underlying terrain
sampler reports NaN (never an exception) on any non-finite input
coordinate. -/
theorem C7_resolver_always_finite (sampler : Option (JNum → JNum → JNum))
    (bounds : Option JBounds) (floorLevel : ℚ) (x z : JNum) :
    (∀ b q, bounds = some b → b.max = .num q →
      (createGroundResolver sampler bounds floorLevel).fallbackHeight = q) ∧
    (∀ b, bounds = some b → b.max = .nan →
      (createGroundResolver sampler bounds floorLevel).fallbackHeight = floorLevel) ∧
    (bounds = none →
      (createGroundResolver sampler bounds floorLevel).fallbackHeight = floorLevel) ∧
    (sampler = none →
      (createGroundResolver sampler bounds floorLevel).sample x z
        = ⟨(createGroundResolver sampler bounds floorLevel).fallbackHeight, false⟩) ∧
    (∀ f, sampler = some f → f x z = .nan →
      (createGroundResolver sampler bounds floorLevel).sample x z
        = ⟨(createGroundResolver sampler bounds floorLevel).fallbackHeight, false⟩) ∧
    (∀ f q, sampler = some f → f x z = .num q →
      (createGroundResolver sampler bounds floorLevel).sample x z = ⟨q, true⟩) ∧
    (∀ d : TerrainData, x.isFinite = false ∨ z.isFinite = false →
      terrainSample d x z = .nan) := by
  refine ⟨?_, ?_, ?_, ?_, ?_, ?_, ?_⟩
  · intro b q hb hq
    subst hb
    cases sampler <;> simp [createGroundResolver, hq]
  · intro b hb hq
    subst hb
    cases sampler <;> simp [createGroundResolver, hq]
  · intro hb
    subst hb
    cases sampler <;> simp [createGroundResolver]
  · intro hs
    subst hs
    rfl
  · intro f hs hf
    subst hs
    simp [createGroundResolver, hf]
  · intro f q hs hf
    subst hs
    simp [createGroundResolver, hf]
  · intro d h
    cases x <;> cases z <;> simp_all [JNum.isFinite, terrainSample]

/-- C7 witness: with no sampler and finite bounds {min 0, max 0}, sampling
anywhere (here at NaN coordinates) yields the finite fallback 0 and
isTerrain = false. -/
theorem C7_witness :
    (createGroundResolver none (some ⟨.num 0, .num 0⟩) 0).sample .nan .nan
      = ⟨(createGroundResolver none (some ⟨.num 0, .num 0⟩) 0).fallbackHeight, false⟩ :=
  (C7_resolver_always_finite none (some ⟨.num 0, .num 0⟩) 0 .nan .nan).2.2.2.1 rfl

/-- C8. Modelled from the spec (the physics-mode integrator is absent from
the source files — see physicsGroundCorrection): whenever the terrain sample
is finite and the deviation of the capsule height from the target
capsule-centre height (groundHeight + capsuleHalfHeight) exceeds the 0.02
threshold, the update adds exactly deviation / max(delta, 0.016) clamped to
[−10, 10]; the clamp keeps the term in [−10, 10]; and a capsule 0.3 above
the required height at delta = 0.016 gets the raw term 18.75 clamped to 10. -/
theorem C8_physics_ground_correction (g capsuleHalfHeight capY delta vy : ℚ)
    (hdev : 2/100 < |capY - (g + capsuleHalfHeight)|) :
    physicsGroundCorrection (.num g) capY capsuleHalfHeight delta vy
        = vy + jsClamp ((capY - (g + capsuleHalfHeight)) / max delta (2/125)) (-10) 10 ∧
    (-10 ≤ jsClamp ((capY - (g + capsuleHalfHeight)) / max delta (2/125)) (-10) 10 ∧
      jsClamp ((capY - (g + capsuleHalfHeight)) / max delta (2/125)) (-10) 10 ≤ 10) ∧
    (3/10 : ℚ) / max (2/125) (2/125) = 75/4 ∧
    physicsGroundCorrection (.num 0) (3/10) 0 (2/125) 0 = 10 := by
  refine ⟨?_, ⟨le_max_left _ _, max_le (by norm_num) (min_le_left _ _)⟩, by norm_num, ?_⟩
  · simp [physicsGroundCorrection, hdev]
  · have habs : |(3/10 : ℚ) - (0 + 0)| = 3/10 := by
      rw [show ((3/10 : ℚ) - (0 + 0)) = 3/10 by norm_num]
      exact abs_of_nonneg (by norm_num)
    simp only [physicsGroundCorrection, habs]
    norm_num [jsClamp]

/-- C8 witness: the scenario-C instance of the general correction formula. -/
theorem C8_witness :
    physicsGroundCorrection (.num 0) (3/10) 0 (2/125) 0
      = 0 + jsClamp (((3/10 : ℚ) - (0 + 0)) / max (2/125) (2/125)) (-10) 10 :=
  (C8_physics_ground_correction 0 0 (3/10) (2/125) 0
    (by rw [show ((3/10 : ℚ) - (0 + 0)) = 3/10 by norm_num]
        rw [abs_of_nonneg (by norm_num : (0:ℚ) ≤ 3/10)]
        norm_num)).1

/-- C9 counterexample: with an empty options bag, the canonical
DEFAULT_CONFIG resolves walkAcceleration to 5 (not the claimed 50) and
sprintAcceleration to 10 (not the claimed 450). -/
theorem C9_defaults_counterexample :
    (mergeConfig {}).walkAcceleration = 5 ∧ (mergeConfig {}).walkAcceleration ≠ 50 ∧
    (mergeConfig {}).sprintAcceleration = 10 ∧ (mergeConfig {}).sprintAcceleration ≠ 450 := by
  refine ⟨rfl, ?_, rfl, ?_⟩ <;> norm_num [mergeConfig, DEFAULT_CONFIG]

/-- C9 amended. Construction applies the canonical documented defaults: each
omitted key resolves to the canonical DEFAULT_CONFIG value — floorLevel 0,
playerHeight 1.6, gravity 28, walkAcceleration 5, sprintAcceleration 10,
movementDamping 12, jumpSpeed 12, capsuleRadius 0.4, capsuleMass 80 — and
every supplied recognized key overrides its default in the resolved config. -/
theorem C9_defaults_merge (o : ConfigOptions) :
    mergeConfig o =
      { floorLevel := o.floorLevel.getD 0
        playerHeight := o.playerHeight.getD (8/5)
        gravity := o.gravity.getD 28
        walkAcceleration := o.walkAcceleration.getD 5
        sprintAcceleration := o.sprintAcceleration.getD 10
        movementDamping := o.movementDamping.getD 12
        jumpSpeed := o.jumpSpeed.getD 12
        capsuleRadius := o.capsuleRadius.getD (2/5)
        capsuleMass := o.capsuleMass.getD 80 } ∧
    (∀ v : ℚ, (mergeConfig { o with walkAcceleration := some v }).walkAcceleration = v) :=
  ⟨rfl, fun _ => rfl⟩

/-- C10. keepOnTerrain never lowers the player: with a position and terrain
data present it raises position.y to max(previous, looked-up floor-indexed
grid height + playerHeight) and changes nothing else (x and z are kept, and
the new y is at least the old); with no position — as on the object
firstPersonSetup actually returns — or a null terrainData, it changes no
state at all. -/
theorem C10_keep_on_terrain (pos : Option Vec3) (td : Option TerrainArg) (ph : ℚ) :
    (∀ p t, pos = some p → td = some t →
      keepOnTerrain pos td ph
          = some ⟨p.x, max p.y (keepOnTerrainY t p.x p.z + ph), p.z⟩ ∧
      p.y ≤ max p.y (keepOnTerrainY t p.x p.z + ph)) ∧
    (pos = none → keepOnTerrain pos td ph = none) ∧
    (td = none → keepOnTerrain pos td ph = pos) := by
  refine ⟨?_, ?_, ?_⟩
  · intro p t hp ht
    subst hp; subst ht
    exact ⟨rfl, le_max_left _ _⟩
  · intro hp
    subst hp
    cases td <;> rfl
  · intro ht
    subst ht
    cases pos <;> rfl

end FPS

